import Mathlib

/-!
Verification of the research-assistant orchestration script
(`src/AI_Assistant_App.py`) against its natural-language specification.

The script builds two agent records and two task records from user
preferences, submits them to an external crew-execution engine, and
renders the result.  Pure string construction is embedded directly;
external collaborators (client constructors, the engine entry point)
are parameters of the model; the UI actions performed by a run are
recorded as an event trace.
-/

namespace ResearchAgent

/-- Handle to a chat model, as produced by the external model-handle factory
(`ChatOpenAI(model=model_name, temperature=0.3, openai_api_key=api_key)`).
The fixed temperature 0.3 is recorded in tenths to stay in integers.
`uid` records the object identity of the created client, so that cached
reuse versus re-creation is observable in the model. -/
structure LLMHandle where
  model : String
  openai_api_key : String
  temperature_tenths : Nat
  uid : Nat
deriving DecidableEq

/-- Handle to the web-search tool, as produced by the external factory
(`SerperDevTool(api_key=search_api_key)`). -/
structure SearchHandle where
  api_key : String
  uid : Nat
deriving DecidableEq

/-- The pair returned by `initialize_tools`: a model handle and a search handle. -/
structure ToolHandles where
  llm : LLMHandle
  search_tool : SearchHandle
deriving DecidableEq

/-- State of the process-wide `@st.cache_resource` cache backing
`initialize_tools`: memoized entries keyed by the exact argument triple,
plus a counter handing out fresh object identities for newly constructed
clients. -/
structure CacheState where
  entries : List ((String × String × String) × ToolHandles)
  next_uid : Nat
deriving DecidableEq

/-- The empty cache a fresh process starts with. -/
def emptyCache : CacheState := { entries := [], next_uid := 0 }

/-- Lookup of a key in the memoization table. -/
def lookupEntry (key : String × String × String) :
    List ((String × String × String) × ToolHandles) → Option ToolHandles
  | [] => none
  | (k, v) :: rest => if k = key then some v else lookupEntry key rest

/-- Modelled from the spec: the `@st.cache_resource` decorator wrapping
`initialize_tools` is implemented by the external streamlit library, not by
code under `src/`.  Per the spec it memoizes the returned pair keyed by the
exact argument triple for the process lifetime, with no invalidation.  The
body follows `initialize_tools` in the source: construct a ChatOpenAI model
handle (temperature 0.3) and a SerperDevTool search handle.  `next_uid`
numbers freshly constructed client objects so that identity is observable. -/
def initialize_tools (api_key search_api_key model_name : String)
    (s : CacheState) : ToolHandles × CacheState :=
  match lookupEntry (api_key, search_api_key, model_name) s.entries with
  | some th => (th, s)
  | none =>
      let llm : LLMHandle :=
        { model := model_name, openai_api_key := api_key
          temperature_tenths := 3, uid := s.next_uid }
      let search_tool : SearchHandle :=
        { api_key := search_api_key, uid := s.next_uid }
      let th : ToolHandles := { llm := llm, search_tool := search_tool }
      (th, { entries := s.entries ++ [((api_key, search_api_key, model_name), th)]
             next_uid := s.next_uid + 1 })

/-- An agent record as passed to the external engine: role, goal, backstory,
verbosity, memory flag, tool list, and the bound model handle. -/
structure AgentSpec where
  role : String
  goal : String
  backstory : String
  verbose : Bool
  memory : Bool
  tools : List SearchHandle
  llm : LLMHandle
deriving DecidableEq

/-- `initialize_agents` from the source: builds the research agent and the
writer agent, both bound to the given model handle and search tool. -/
def initialize_agents (llm : LLMHandle) (search_tool : SearchHandle) :
    AgentSpec × AgentSpec :=
  let research_agent : AgentSpec :=
    { role := "Research Specialist"
      goal := "Conduct fast, accurate research on the given topic"
      backstory := "Expert in information gathering and analysis"
      verbose := true
      memory := false
      tools := [search_tool]
      llm := llm }
  let writer_agent : AgentSpec :=
    { role := "Technical Research Writer"
      goal := "Create concise, structured reports"
      backstory := "Specialist in clear, precise technical research paper writing"
      verbose := true
      memory := false
      tools := [search_tool]
      llm := llm }
  (research_agent, writer_agent)

/-- A task record as passed to the external engine: description, owning
agent, expected-output text, the async-execution flag, and the list of
context (dependency) tasks. -/
inductive TaskSpec : Type where
  | mk (description : String) (agent : AgentSpec) (expected_output : String)
      (async_execution : Bool) (context : List TaskSpec) : TaskSpec

/-- Description text of a task. -/
def TaskSpec.description : TaskSpec → String
  | .mk d _ _ _ _ => d

/-- Owning agent of a task. -/
def TaskSpec.agent : TaskSpec → AgentSpec
  | .mk _ a _ _ _ => a

/-- Expected-output text of a task. -/
def TaskSpec.expected_output : TaskSpec → String
  | .mk _ _ e _ _ => e

/-- The async-execution flag of a task. -/
def TaskSpec.async_execution : TaskSpec → Bool
  | .mk _ _ _ b _ => b

/-- Context (dependency) tasks of a task. -/
def TaskSpec.context : TaskSpec → List TaskSpec
  | .mk _ _ _ _ c => c

/-- The research-task description built in `run_research_pipeline`
(lines 66 to 70): start from the base text, append the news sentence when
`include_news` holds, then append the academic sentence when
`include_academic` holds. -/
def research_description (topic : String)
    (include_news include_academic : Bool) : String :=
  let d := "Find key information about: " ++ topic
  let d := if include_news then d ++ " Include the latest news articles." else d
  let d := if include_academic
    then d ++ " Also include research papers and academic sources." else d
  d

/-- The research task built in `run_research_pipeline` (lines 72 to 79):
expected output is chosen by `include_academic`, and the task is flagged
for async execution with no context dependencies. -/
def build_research_task (topic : String)
    (include_news include_academic : Bool)
    (research_agent : AgentSpec) : TaskSpec :=
  .mk (research_description topic include_news include_academic)
      research_agent
      (if include_academic then
        "Detailed Bullet points of key facts, recent developments, and academic references."
       else
        "Bullet points of key facts and recent developments.")
      true
      []

/-- The writing task built in `run_research_pipeline` (lines 81 to 86):
fixed description and expected-output templates over the output format,
with the research task as sole context dependency; `async_execution`
keeps the constructor default `false`. -/
def build_writing_task (topic output_format : String)
    (writer_agent : AgentSpec) (research_task : TaskSpec) : TaskSpec :=
  .mk ("Create structured report on: " ++ topic ++ " in " ++ output_format ++ " format.")
      writer_agent
      (" A " ++ output_format ++
        " document with:\n- Introduction\n- Key Findings\n- Recent Developments\n- Future Outlook\n- References")
      false
      [research_task]

/-- The bundle handed to the engine: `Crew(agents=..., tasks=...)`. -/
structure CrewSpec where
  agents : List AgentSpec
  tasks : List TaskSpec

/-- The named-input map passed to `crew.kickoff`, as an association list. -/
abbrev InputMap := List (String × String)

/-- The external collaborators a run calls into, as functions that either
return normally or raise (`Except.error` carries the exception text):
construction of the two clients inside `initialize_tools`, and the
engine entry point `crew.kickoff`. -/
structure Ext where
  init_tools : String → String → String → Except String ToolHandles
  kickoff : CrewSpec → InputMap → Except String String

/-- A UI action performed while handling one press of the Start Research
trigger. -/
inductive UIEvent : Type where
  | warning (msg : String)
  | errorMsg (msg : String)
  | reportHeader
  | reportBlock (content : String)
  | divider
  | poweredBy
  | success (msg : String)
deriving DecidableEq

/-- Observable outcome of a run: the UI events emitted in order, the calls
made to `crew.kickoff` (bundle and input map), and the value returned by
`run_research_pipeline`. -/
structure PipelineRun where
  events : List UIEvent
  kickoffCalls : List (CrewSpec × InputMap)
  result : Option String

/-- The crew bundle built inside `run_research_pipeline` (lines 63 to 88):
the two agents from `initialize_agents` over the shared tool handles, and
the two tasks built from the preferences. -/
def build_crew (th : ToolHandles) (topic : String)
    (include_news include_academic : Bool) (output_format : String) : CrewSpec :=
  let agents := initialize_agents th.llm th.search_tool
  let research_task := build_research_task topic include_news include_academic agents.1
  let writing_task := build_writing_task topic output_format agents.2 research_task
  { agents := [agents.1, agents.2], tasks := [research_task, writing_task] }

/-- `run_research_pipeline` from the source (lines 60 to 98): initialize
tools, build the two agents and two tasks, submit the crew with the topic
as sole named input, and return the result; any exception raised in the
`try` block is caught, rendered as `st.error(f"Error: {str(e)}")`, and
`None` is returned. -/
def run_research_pipeline (ext : Ext)
    (openai_api_key serper_api_key selected_model : String)
    (topic : String) (include_news include_academic : Bool)
    (output_format : String) : PipelineRun :=
  match ext.init_tools openai_api_key serper_api_key selected_model with
  | .error e => { events := [.errorMsg ("Error: " ++ e)], kickoffCalls := [], result := none }
  | .ok th =>
      let crew := build_crew th topic include_news include_academic output_format
      match ext.kickoff crew [("topic", topic)] with
      | .ok result =>
          { events := [], kickoffCalls := [(crew, [("topic", topic)])], result := some result }
      | .error e =>
          { events := [.errorMsg ("Error: " ++ e)]
            kickoffCalls := [(crew, [("topic", topic)])], result := none }

/-- The exception, if any, that the `try` block of `run_research_pipeline`
catches for the given external behavior and arguments: a failure of client
construction, or a failure raised by `crew.kickoff`. -/
def pipeline_exception (ext : Ext)
    (openai_api_key serper_api_key selected_model : String)
    (topic : String) (include_news include_academic : Bool)
    (output_format : String) : Option String :=
  match ext.init_tools openai_api_key serper_api_key selected_model with
  | .error e => some e
  | .ok th =>
      match ext.kickoff (build_crew th topic include_news include_academic output_format)
          [("topic", topic)] with
      | .ok _ => none
      | .error e => some e

/-- The Start Research button handler (lines 129 to 144): an empty topic
only triggers the warning; otherwise the pipeline runs, a truthy result is
rendered as the report block, and the divider plus footer follow.  The
success banner sits outside both checks and is emitted on every press. -/
def start_research_handler (ext : Ext)
    (openai_api_key serper_api_key selected_model : String)
    (topic : String) (include_news include_academic : Bool)
    (output_format : String) : PipelineRun :=
  if topic = "" then
    { events := [.warning "Please enter the research topic", .success "✅ Research complete!"]
      kickoffCalls := [], result := none }
  else
    let pr := run_research_pipeline ext openai_api_key serper_api_key selected_model
      topic include_news include_academic output_format
    let reportEvents : List UIEvent :=
      match pr.result with
      | some r => if r = "" then [] else [.reportHeader, .reportBlock r]
      | none => []
    { events := pr.events ++ reportEvents ++
        [.divider, .poweredBy, .success "✅ Research complete!"]
      kickoffCalls := pr.kickoffCalls
      result := pr.result }

/-- Events emitted after the first error message of a trace (empty when no
error message occurs). -/
def eventsAfterFirstError : List UIEvent → List UIEvent
  | [] => []
  | .errorMsg _ :: rest => rest
  | _ :: rest => eventsAfterFirstError rest

/-- A concrete external behavior whose engine raises: client construction
succeeds, `crew.kickoff` raises with text "boom". -/
def extFailing : Ext :=
  { init_tools := fun _ _ _ => .ok
      { llm := { model := "gpt-3.5-turbo", openai_api_key := "pk"
                 temperature_tenths := 3, uid := 0 }
        search_tool := { api_key := "sk", uid := 0 } }
    kickoff := fun _ _ => .error "boom" }

/-- A concrete external behavior in which everything succeeds and the
engine returns the text "report". -/
def extOk : Ext :=
  { init_tools := fun _ _ _ => .ok
      { llm := { model := "gpt-3.5-turbo", openai_api_key := "pk"
                 temperature_tenths := 3, uid := 0 }
        search_tool := { api_key := "sk", uid := 0 } }
    kickoff := fun _ _ => .ok "report" }

/-- The tool handles both sample behaviors return. -/
def thOk : ToolHandles :=
  { llm := { model := "gpt-3.5-turbo", openai_api_key := "pk"
             temperature_tenths := 3, uid := 0 }
    search_tool := { api_key := "sk", uid := 0 } }

/-- C1: for every topic and every combination of the two booleans, the
research-task description built by `run_research_pipeline` is the base text
"Find key information about: {topic}" followed by the news sentence exactly
when `include_news` holds, followed by the academic sentence exactly when
`include_academic` holds, in that order. -/
theorem research_description_spec (topic : String)
    (include_news include_academic : Bool) (ag : AgentSpec) :
    (build_research_task topic include_news include_academic ag).description =
      "Find key information about: " ++ topic
        ++ (if include_news then " Include the latest news articles." else "")
        ++ (if include_academic then " Also include research papers and academic sources." else "") := by
  cases include_news <;> cases include_academic <;>
    simp [build_research_task, research_description, TaskSpec.description,
      String.append_assoc]

/-- C2: the research-task expected-output text is a two-way choice on
`include_academic` alone — independent of topic, news flag and agent; the
detailed academic text when the flag holds, the plain text otherwise; in
particular the plain text for the Quantum Computing example. -/
theorem research_expected_output_spec :
    (∀ (topic topic' : String) (news news' academic : Bool) (ag ag' : AgentSpec),
      (build_research_task topic news academic ag).expected_output =
        (build_research_task topic' news' academic ag').expected_output)
    ∧ (∀ (topic : String) (news : Bool) (ag : AgentSpec),
      (build_research_task topic news true ag).expected_output =
        "Detailed Bullet points of key facts, recent developments, and academic references.")
    ∧ (∀ (topic : String) (news : Bool) (ag : AgentSpec),
      (build_research_task topic news false ag).expected_output =
        "Bullet points of key facts and recent developments.")
    ∧ (∀ ag : AgentSpec,
      (build_research_task "Quantum Computing Advances 2024" true false ag).expected_output =
        "Bullet points of key facts and recent developments.") := by
  refine ⟨fun topic topic' news news' academic ag ag' => rfl,
    fun topic news ag => rfl, fun topic news ag => rfl, fun ag => rfl⟩

/-- C3: the writing-task description is exactly
"Create structured report on: {topic} in {output_format} format.", and its
expected-output text contains the five section names Introduction,
Key Findings, Recent Developments, Future Outlook, References in that fixed
order, for every topic, format, agent and research task. -/
theorem writing_task_spec (topic output_format : String)
    (wa : AgentSpec) (rt : TaskSpec) :
    (build_writing_task topic output_format wa rt).description =
      "Create structured report on: " ++ topic ++ " in " ++ output_format ++ " format."
    ∧ ∃ a b c d e f : String,
      (build_writing_task topic output_format wa rt).expected_output =
        a ++ "Introduction" ++ b ++ "Key Findings" ++ c ++ "Recent Developments"
          ++ d ++ "Future Outlook" ++ e ++ "References" ++ f := by
  refine ⟨rfl, " A " ++ output_format ++ " document with:\n- ",
    "\n- ", "\n- ", "\n- ", "\n- ", "", ?_⟩
  simp [build_writing_task, TaskSpec.expected_output, String.append_assoc]

/-- C7: in every run the writing task has the research task as its sole
context dependency, the research task has no dependencies, the writing task
is not among its own dependencies (no cycle), and the dependency graph over
the two tasks has exactly one edge. -/
theorem task_dependency_spec (topic output_format : String)
    (include_news include_academic : Bool) (ra wa : AgentSpec) :
    (build_writing_task topic output_format wa
        (build_research_task topic include_news include_academic ra)).context =
      [build_research_task topic include_news include_academic ra]
    ∧ (build_research_task topic include_news include_academic ra).context = []
    ∧ (build_writing_task topic output_format wa
        (build_research_task topic include_news include_academic ra)) ∉
      (build_writing_task topic output_format wa
        (build_research_task topic include_news include_academic ra)).context
    ∧ (build_research_task topic include_news include_academic ra).context.length +
        (build_writing_task topic output_format wa
          (build_research_task topic include_news include_academic ra)).context.length = 1 := by
  refine ⟨rfl, rfl, ?_, rfl⟩
  intro hmem
  have h : build_writing_task topic output_format wa
      (build_research_task topic include_news include_academic ra) =
      build_research_task topic include_news include_academic ra := by
    simpa [build_writing_task, TaskSpec.context] using hmem
  have h2 := congrArg TaskSpec.context h
  simp [build_writing_task, build_research_task, TaskSpec.context] at h2

/-- C4: pressing Start Research with an empty topic only emits the warning
(and the unconditional success banner); `run_research_pipeline` is not
invoked, so no error, no report, and no `crew.kickoff` call occur. -/
theorem empty_topic_spec (ext : Ext) (pk sk mn : String)
    (include_news include_academic : Bool) (output_format : String) :
    start_research_handler ext pk sk mn "" include_news include_academic output_format =
      { events := [.warning "Please enter the research topic", .success "✅ Research complete!"]
        kickoffCalls := [], result := none } := by
  rfl

/-- C10: every press of the Start Research trigger emits the success banner
"✅ Research complete!", on the empty-topic warning path as well as on
successful and failed pipeline runs, because the call sits outside both the
topic check and the result check. -/
theorem success_banner_spec (ext : Ext) (pk sk mn topic : String)
    (include_news include_academic : Bool) (output_format : String) :
    UIEvent.success "✅ Research complete!" ∈
      (start_research_handler ext pk sk mn topic include_news include_academic
        output_format).events := by
  by_cases h : topic = ""
  · subst h
    simp [start_research_handler]
  · simp [start_research_handler, h]

/-- C8 counterexample: the writer agent role text in the source is
"Technical Research Writer", not "Technical Writer" as claimed. -/
theorem agent_roles_counterexample :
    (initialize_agents thOk.llm thOk.search_tool).2.role = "Technical Research Writer"
    ∧ (initialize_agents thOk.llm thOk.search_tool).2.role ≠ "Technical Writer" := by
  refine ⟨rfl, ?_⟩
  decide

/-- C8 (amended): `initialize_agents` produces exactly two agents whose
role texts are "Research Specialist" and "Technical Research Writer", and
both agents are bound to the same shared model handle and the same shared
search handle — the single ToolHandles pair of the run. -/
theorem agent_definitions_spec (llm : LLMHandle) (search_tool : SearchHandle) :
    (initialize_agents llm search_tool).1.role = "Research Specialist"
    ∧ (initialize_agents llm search_tool).2.role = "Technical Research Writer"
    ∧ (initialize_agents llm search_tool).1.llm = llm
    ∧ (initialize_agents llm search_tool).2.llm = llm
    ∧ (initialize_agents llm search_tool).1.tools = [search_tool]
    ∧ (initialize_agents llm search_tool).2.tools = [search_tool] :=
  ⟨rfl, rfl, rfl, rfl, rfl, rfl⟩

/-- C5 counterexample: with an engine that raises, the handler still emits
the divider, the footer and the success banner after the error message, so
further rendering is not suppressed. -/
theorem error_suppression_counterexample :
    eventsAfterFirstError
        (start_research_handler extFailing "pk" "sk" "gpt-3.5-turbo"
          "Quantum Computing Advances 2024" true true "Markdown").events
      = [.divider, .poweredBy, .success "✅ Research complete!"]
    ∧ eventsAfterFirstError
        (start_research_handler extFailing "pk" "sk" "gpt-3.5-turbo"
          "Quantum Computing Advances 2024" true true "Markdown").events ≠ [] := by
  refine ⟨rfl, ?_⟩
  decide

/-- C5 (amended): on any run with a non-empty topic in which
initialization, task composition or submission raises, exactly one error
message built from the caught exception text is shown,
`run_research_pipeline` returns the absence value, and the report block is
not rendered; the divider, the footer and the success banner still render
after the error message. -/
theorem pipeline_failure_spec (ext : Ext) (pk sk mn topic : String)
    (include_news include_academic : Bool) (output_format : String) (e : String)
    (htopic : topic ≠ "")
    (hexc : pipeline_exception ext pk sk mn topic include_news include_academic
        output_format = some e) :
    (run_research_pipeline ext pk sk mn topic include_news include_academic
        output_format).events = [.errorMsg ("Error: " ++ e)]
    ∧ (run_research_pipeline ext pk sk mn topic include_news include_academic
        output_format).result = none
    ∧ (start_research_handler ext pk sk mn topic include_news include_academic
        output_format).events =
      [.errorMsg ("Error: " ++ e), .divider, .poweredBy, .success "✅ Research complete!"] := by
  cases hinit : ext.init_tools pk sk mn with
  | error e2 =>
      simp only [pipeline_exception, hinit] at hexc
      cases hexc
      refine ⟨?_, ?_, ?_⟩ <;>
        simp [run_research_pipeline, start_research_handler, hinit, htopic]
  | ok th =>
      cases hk : ext.kickoff (build_crew th topic include_news include_academic output_format)
          [("topic", topic)] with
      | ok r =>
          simp [pipeline_exception, hinit, hk] at hexc
      | error e2 =>
          simp only [pipeline_exception, hinit, hk] at hexc
          cases hexc
          refine ⟨?_, ?_, ?_⟩ <;>
            simp [run_research_pipeline, start_research_handler, hinit, hk, htopic]

/-- C5 witness: the amended theorem applies to a concrete failing engine. -/
theorem pipeline_failure_spec_witness :
    (run_research_pipeline extFailing "pk" "sk" "gpt-3.5-turbo"
        "Quantum Computing Advances 2024" true true "Markdown").events
      = [.errorMsg ("Error: " ++ "boom")]
    ∧ (run_research_pipeline extFailing "pk" "sk" "gpt-3.5-turbo"
        "Quantum Computing Advances 2024" true true "Markdown").result = none
    ∧ (start_research_handler extFailing "pk" "sk" "gpt-3.5-turbo"
        "Quantum Computing Advances 2024" true true "Markdown").events =
      [.errorMsg ("Error: " ++ "boom"), .divider, .poweredBy,
        .success "✅ Research complete!"] :=
  pipeline_failure_spec extFailing "pk" "sk" "gpt-3.5-turbo"
    "Quantum Computing Advances 2024" true true "Markdown" "boom" (by decide) rfl

/-- C9: whenever tool initialization succeeds, the pipeline makes exactly
one call to the engine entry point, on the bundle of the two agents and the
two tasks, with an input map whose only entry is keyed "topic"; on engine
success the engine result is returned. -/
theorem kickoff_submission_spec (ext : Ext) (pk sk mn topic : String)
    (include_news include_academic : Bool) (output_format : String)
    (th : ToolHandles) (hinit : ext.init_tools pk sk mn = .ok th) :
    (run_research_pipeline ext pk sk mn topic include_news include_academic
        output_format).kickoffCalls =
      [(build_crew th topic include_news include_academic output_format, [("topic", topic)])]
    ∧ (build_crew th topic include_news include_academic output_format).agents =
      [(initialize_agents th.llm th.search_tool).1, (initialize_agents th.llm th.search_tool).2]
    ∧ (build_crew th topic include_news include_academic output_format).tasks =
      [build_research_task topic include_news include_academic
          (initialize_agents th.llm th.search_tool).1,
        build_writing_task topic output_format (initialize_agents th.llm th.search_tool).2
          (build_research_task topic include_news include_academic
            (initialize_agents th.llm th.search_tool).1)]
    ∧ (∀ entry ∈ ([("topic", topic)] : InputMap), entry.1 = "topic")
    ∧ (∀ r, ext.kickoff (build_crew th topic include_news include_academic output_format)
          [("topic", topic)] = .ok r →
        (run_research_pipeline ext pk sk mn topic include_news include_academic
          output_format).result = some r) := by
  refine ⟨?_, rfl, rfl, ?_, ?_⟩
  · cases hk : ext.kickoff (build_crew th topic include_news include_academic output_format)
        [("topic", topic)] with
    | ok r => simp [run_research_pipeline, hinit, hk]
    | error e2 => simp [run_research_pipeline, hinit, hk]
  · intro entry hentry
    simp only [List.mem_singleton] at hentry
    subst hentry
    rfl
  · intro r hk
    simp [run_research_pipeline, hinit, hk]

/-- C9 witness: the theorem applies to a concrete succeeding engine. -/
theorem kickoff_submission_spec_witness :
    (run_research_pipeline extOk "pk" "sk" "gpt-3.5-turbo"
        "Quantum Computing Advances 2024" true true "Markdown").kickoffCalls =
      [(build_crew thOk "Quantum Computing Advances 2024" true true "Markdown",
        [("topic", "Quantum Computing Advances 2024")])]
    ∧ (run_research_pipeline extOk "pk" "sk" "gpt-3.5-turbo"
        "Quantum Computing Advances 2024" true true "Markdown").result = some "report" :=
  ⟨(kickoff_submission_spec extOk "pk" "sk" "gpt-3.5-turbo"
      "Quantum Computing Advances 2024" true true "Markdown" thOk rfl).1,
    (kickoff_submission_spec extOk "pk" "sk" "gpt-3.5-turbo"
      "Quantum Computing Advances 2024" true true "Markdown" thOk rfl).2.2.2.2 "report" rfl⟩

/-- A key absent from a table is found after appending an entry for it. -/
theorem lookupEntry_append_self (key : String × String × String) (v : ToolHandles)
    (l : List ((String × String × String) × ToolHandles))
    (h : lookupEntry key l = none) :
    lookupEntry key (l ++ [(key, v)]) = some v := by
  induction l with
  | nil => simp [lookupEntry]
  | cons p rest ih =>
      obtain ⟨k, w⟩ := p
      by_cases hk : k = key
      · simp [lookupEntry, hk] at h
      · simp only [List.cons_append, lookupEntry, if_neg hk] at h ⊢
        exact ih h

/-- C6: repeated calls to `initialize_tools` with the identical argument
triple return the same cached pair and leave the cache unchanged; no entry
is ever removed from the cache; and starting from a fresh process, a call
with any differing triple returns a distinct pair. -/
theorem initialize_tools_cache_spec :
    (∀ (pk sk mn : String) (s : CacheState),
      initialize_tools pk sk mn (initialize_tools pk sk mn s).2 =
        ((initialize_tools pk sk mn s).1, (initialize_tools pk sk mn s).2))
    ∧ (∀ (pk sk mn : String) (s : CacheState) entry, entry ∈ s.entries →
      entry ∈ (initialize_tools pk sk mn s).2.entries)
    ∧ (∀ pk sk mn pk' sk' mn' : String,
      ((pk, sk, mn) : String × String × String) ≠ (pk', sk', mn') →
      (initialize_tools pk' sk' mn' (initialize_tools pk sk mn emptyCache).2).1 ≠
        (initialize_tools pk sk mn emptyCache).1) := by
  refine ⟨?_, ?_, ?_⟩
  · intro pk sk mn s
    cases hl : lookupEntry (pk, sk, mn) s.entries with
    | some th => simp [initialize_tools, hl]
    | none =>
        simp only [initialize_tools, hl]
        rw [lookupEntry_append_self _ _ _ hl]
  · intro pk sk mn s entry hmem
    cases hl : lookupEntry (pk, sk, mn) s.entries with
    | some th => simpa [initialize_tools, hl] using hmem
    | none =>
        simp only [initialize_tools, hl]
        exact List.mem_append_left _ hmem
  · intro pk sk mn pk' sk' mn' hne
    simp only [initialize_tools, emptyCache, lookupEntry, List.nil_append,
      if_neg hne]
    intro heq
    have := congrArg (fun t => t.llm.uid) heq
    simp at this

/-- C6 witness: the theorem applies at concrete distinct triples. -/
theorem initialize_tools_cache_spec_witness :
    (((("a", "b", "c") : String × String × String) ≠ ("a", "b", "d"))
      ∧ (initialize_tools "a" "b" "d" (initialize_tools "a" "b" "c" emptyCache).2).1 ≠
          (initialize_tools "a" "b" "c" emptyCache).1)
    ∧ ((("a", "b", "c"), (initialize_tools "a" "b" "c" emptyCache).1) ∈
          (initialize_tools "a" "b" "c" emptyCache).2.entries
        ∧ (("a", "b", "c"), (initialize_tools "a" "b" "c" emptyCache).1) ∈
          (initialize_tools "x" "y" "z"
            (initialize_tools "a" "b" "c" emptyCache).2).2.entries) :=
  ⟨⟨by decide, initialize_tools_cache_spec.2.2 "a" "b" "c" "a" "b" "d" (by decide)⟩,
    by decide,
    initialize_tools_cache_spec.2.1 "x" "y" "z"
      (initialize_tools "a" "b" "c" emptyCache).2
      (("a", "b", "c"), (initialize_tools "a" "b" "c" emptyCache).1) (by decide)⟩

end ResearchAgent
